import Mathlib

/-!
Shallow embedding of the ebitmx library (TMX tile-map loading for ebiten):
the data model, tile-reference decoding, layer decoding, tileset atlas
slicing, collision queries and the top-level map loader, together with
theorems about their behaviour.  External collaborators (file system, XML
parser, base64 decoder, image loader) are modelled as function-valued
environment fields; Go runtime panics (nil dereference, index out of range,
division by zero) are modelled by a distinguished crash outcome.
-/

namespace Ebitmx

/-- Result of a Go computation: a runtime panic, a returned error value, or a
normal result.  `crash` models panics (nil-pointer dereference, index out of
range, integer division by zero); `err` models a returned non-nil error. -/
inductive Outcome (α : Type) where
  | crash : Outcome α
  | err : Outcome α
  | ok : α → Outcome α
deriving DecidableEq

/-- FLIPPED_HORIZONTALLY_FLAG from the source. -/
def FLIPPED_HORIZONTALLY_FLAG : Nat := 0x80000000

/-- FLIPPED_VERTICALLY_FLAG from the source. -/
def FLIPPED_VERTICALLY_FLAG : Nat := 0x40000000

/-- FLIPPED_DIAGONALLY_FLAG from the source. -/
def FLIPPED_DIAGONALLY_FLAG : Nat := 0x20000000

/-- An axis-aligned rectangle with min corner (x0, y0) and max corner
(x1, y1), the shape of Go image.Rectangle for the atlas slices (which all
have non-negative coordinates). -/
structure Rect where
  x0 : Nat
  y0 : Nat
  x1 : Nat
  y1 : Nat
deriving DecidableEq

/-- Go image.Rect: builds the rectangle, swapping coordinates per axis when
given in the wrong order so the result is well-formed. -/
def imageRect (x0 y0 x1 y1 : Nat) : Rect :=
  { x0 := min x0 x1, y0 := min y0 y1, x1 := max x0 x1, y1 := max y0 y1 }

/-- An opaque loaded image: only its pixel size is relevant here.  Models the
ebiten image handle returned by the image loader collaborator. -/
structure Image where
  Width : Nat
  Height : Nat
deriving DecidableEq

/-- TSXFile: the attribute structure the XML collaborator extracts from an
external tileset description (the nested image element is flattened into the
three Image-prefixed fields). -/
structure TSXFile where
  Version : String := ""
  TiledVersion : String := ""
  Name : String := ""
  TileWidth : Nat := 0
  TileHeight : Nat := 0
  TileCount : Nat := 0
  Columns : Nat := 0
  ImageSource : String := ""
  ImageWidth : Nat := 0
  ImageHeight : Nat := 0
deriving DecidableEq

/-- Tileset from the source.  The Go field Tiles is a map from local tile
index to the sub-image sliced out of the tileset image; a sub-image handle is
represented by its source rectangle, so Tiles becomes an association list
from index to rectangle. -/
structure Tileset where
  FirstGid : Nat := 0
  Source : String := ""
  Name : String := ""
  TileWidth : Nat := 0
  TileHeight : Nat := 0
  Spacing : Nat := 0
  Margin : Nat := 0
  TileCount : Nat := 0
  Columns : Nat := 0
  Version : String := ""
  Tiledversion : String := ""
  Tiles : List (Nat × Rect) := []
deriving DecidableEq

/-- Tile from the source.  The Go field Tileset is a possibly-nil pointer,
modelled as an Option. -/
structure Tile where
  GlobalTileID : Nat := 0
  InternalTileID : Nat := 0
  X : Nat := 0
  Y : Nat := 0
  FlippedHorizontally : Bool := false
  FlippedVertically : Bool := false
  FlippedDiagonally : Bool := false
  Tileset : Option Tileset := none
deriving DecidableEq

/-- TileFromByteArray from the source: assembles the little-endian 32-bit
value of the four bytes, tests each flip flag with the magnitude comparison
(value greater than 1) the source uses, and masks the three flag bits off to
obtain the global tile ID. -/
def TileFromByteArray (b0 b1 b2 b3 : Nat) : Tile :=
  let encodedID : Nat := b0 ||| b1 <<< 8 ||| b2 <<< 16 ||| b3 <<< 24
  { GlobalTileID :=
      encodedID &&&
        ((FLIPPED_DIAGONALLY_FLAG ||| FLIPPED_HORIZONTALLY_FLAG |||
            FLIPPED_VERTICALLY_FLAG) ^^^ 0xffffffff)
    FlippedHorizontally := decide (encodedID &&& FLIPPED_HORIZONTALLY_FLAG > 1)
    FlippedVertically := decide (encodedID &&& FLIPPED_VERTICALLY_FLAG > 1)
    FlippedDiagonally := decide (encodedID &&& FLIPPED_DIAGONALLY_FLAG > 1)
    Tileset := none }

/-- The little-endian 32-bit value of four bytes, as the spec phrases the raw
cell value. -/
def rawLE (b0 b1 b2 b3 : Nat) : Nat :=
  b0 + b1 * 2 ^ 8 + b2 * 2 ^ 16 + b3 * 2 ^ 24

/-- Layer from the source, with the nested Data struct flattened into the
three Data-prefixed fields and the ebiten render cache omitted. -/
structure Layer where
  ID : Nat := 0
  Name : String := ""
  Width : Nat := 0
  Height : Nat := 0
  Tiles : List Tile := []
  DataText : String := ""
  DataEncoding : String := ""
  DataCompression : String := ""
deriving DecidableEq

/-- Object from the source (the template and rotation attributes are carried
along; coordinates are Go ints). -/
structure Object where
  ID : Nat := 0
  Name : String := ""
  X : Int := 0
  Y : Int := 0
  Width : Int := 0
  Height : Int := 0
  Rotation : Int := 0
  Gid : Nat := 0
  Visible : Bool := true
deriving DecidableEq

/-- ObjectGroup from the source (render cache omitted). -/
structure ObjectGroup where
  ID : Nat := 0
  Name : String := ""
  Objects : List Object := []
deriving DecidableEq

/-- TmxMap from the source (camera fields and render caches omitted; they do
not participate in loading, decoding or collision queries). -/
structure TmxMap where
  Version : String := ""
  Width : Nat := 0
  Height : Nat := 0
  PixelWidth : Nat := 0
  PixelHeight : Nat := 0
  TileWidth : Nat := 0
  TileHeight : Nat := 0
  Tilesets : List Tileset := []
  Layers : List Layer := []
  ObjectGroups : List ObjectGroup := []
deriving DecidableEq

/-- The external collaborators the loader delegates to: file reads, the XML
document parser (for the map and for external tileset descriptions), the
image loader and the base64 decoder.  Each is a plain function so a concrete
environment can be evaluated. -/
structure Env where
  readFile : String → Option (List Nat)
  unmarshalTsx : List Nat → Option TSXFile
  unmarshalMap : List Nat → Option TmxMap
  loadImage : String → Option Image
  b64decode : String → Option (List Nat)

/-- filepath.Join of two path components (models the Go standard library
collaborator; filepath.Abs is modelled as the identity since it only fails
when the working directory is unavailable). -/
def filepathJoin (a b : String) : String := a ++ "/" ++ b

/-- filepath.Dir: everything before the last path separator (models the Go
standard library collaborator). -/
def filepathDir (p : String) : String :=
  let parts := p.splitOn "/"
  if parts.length ≤ 1 then "." else String.intercalate "/" parts.dropLast

/-- The tile pre-loading loop of LoadFromTsx: for each local tile index from
0 to TileCount-1 it slices the atlas rectangle
image.Rect(x0, y0, x0+TileWidth, y0+TileHeight) where
x0 = (tileNum mod Columns) * TileWidth and
y0 = (tileNum div Columns) * TileWidth, exactly as the source computes them.
A zero column count makes the source divide by zero, modelled as a crash.
The first argument pair is (columns, (tileWidth, tileHeight)); then the
current index and the number of remaining iterations. -/
def buildTiles (cols tw th : Nat) : Nat → Nat → Outcome (List (Nat × Rect))
  | _, 0 => .ok []
  | n, Nat.succ k =>
    if cols = 0 then .crash
    else
      match buildTiles cols tw th (n + 1) k with
      | .crash => .crash
      | .err => .err
      | .ok rest =>
        .ok ((n, imageRect ((n % cols) * tw) ((n / cols) * tw)
                ((n % cols) * tw + tw) ((n / cols) * tw + th)) :: rest)

/-- LoadFromTsx from the source: read the external description, feed it to
the XML parser DISCARDING the parser result error (on failure the zero-valued
TSXFile is used, exactly as the source's discarded Unmarshal error leaves the
zero value in place), copy the geometry attributes, load the referenced
image, then pre-slice all atlas rectangles. -/
def loadFromTsx (env : Env) (path : String) (t : Tileset) : Outcome Tileset :=
  let absTSXPath := filepathJoin path t.Source
  match env.readFile absTSXPath with
  | none => .err
  | some data =>
    let tsxFile := (env.unmarshalTsx data).getD {}
    let t1 := { t with Version := tsxFile.Version
                       Tiledversion := tsxFile.TiledVersion
                       TileWidth := tsxFile.TileWidth
                       TileHeight := tsxFile.TileHeight
                       TileCount := tsxFile.TileCount
                       Columns := tsxFile.Columns }
    let absImgPath := filepathJoin (filepathDir absTSXPath) tsxFile.ImageSource
    match env.loadImage absImgPath with
    | none => .err
    | some _img =>
      match buildTiles t1.Columns t1.TileWidth t1.TileHeight 0 t1.TileCount with
      | .crash => .crash
      | .err => .err
      | .ok tiles => .ok { t1 with Tiles := tiles }

/-- The tileset-resolution loop of DecodeData: iterate over ALL tilesets and
keep overwriting the owner with every tileset whose FirstGid does not exceed
the global ID (last match wins), starting from the nil pointer. -/
def resolveTileset (tilesets : List Tileset) (gid : Nat) : Option Tileset :=
  tilesets.foldl (fun acc ts => if ts.FirstGid ≤ gid then some ts else acc) none

/-- The byte-group traversal of DecodeData's loop: indices 0, 4, 8, ... while
at least 4 bytes remain, so exactly len/4 complete groups are taken and a
trailing partial group is ignored. -/
def chunk4 : List Nat → List (Nat × Nat × Nat × Nat)
  | b0 :: b1 :: b2 :: b3 :: rest => (b0, b1, b2, b3) :: chunk4 rest
  | _ => []

/-- The per-cell body of DecodeData's loop, over the remaining 4-byte groups
with the running cell counter tileNum.  For a non-empty cell: resolve the
owner (a failed resolution reaches the source's error branch, which
dereferences the nil Tileset pointer while building the message — a crash);
then set X = tileNum mod Width and Y = tileNum div Height as the source does
(zero Width or Height would make the source divide by zero — a crash), set
InternalTileID and append.  Empty cells are skipped.  tileNum advances for
every group, non-empty or not. -/
def decodeLoop (tilesets : List Tileset) (l : Layer) :
    List (Nat × Nat × Nat × Nat) → Nat → Outcome (List Tile)
  | [], _ => .ok []
  | (b0, b1, b2, b3) :: rest, tileNum =>
    let newTile := TileFromByteArray b0 b1 b2 b3
    if newTile.GlobalTileID ≠ 0 then
      match resolveTileset tilesets newTile.GlobalTileID with
      | none => .crash
      | some ts =>
        if l.Width = 0 ∨ l.Height = 0 then .crash
        else
          match decodeLoop tilesets l rest (tileNum + 1) with
          | .crash => .crash
          | .err => .err
          | .ok tiles =>
            .ok ({ newTile with
                    Tileset := some ts
                    X := tileNum % l.Width
                    Y := tileNum / l.Height
                    InternalTileID := newTile.GlobalTileID - ts.FirstGid } :: tiles)
    else
      decodeLoop tilesets l rest (tileNum + 1)

/-- DecodeData from the source: only a base64 encoding is processed (anything
else returns nil without touching the layer); the trimmed payload is base64
decoded (a decode failure is returned as an error), then the loop above runs
over the complete 4-byte groups and the produced tiles are appended to the
layer's Tiles. -/
def DecodeData (env : Env) (tilesets : List Tileset) (l : Layer) :
    Outcome (List Tile) :=
  if l.DataEncoding = "base64" then
    match env.b64decode l.DataText.trim with
    | none => .err
    | some byteArray =>
      match decodeLoop tilesets l (chunk4 byteArray) 0 with
      | .crash => .crash
      | .err => .err
      | .ok newTiles => .ok (l.Tiles ++ newTiles)
  else .ok l.Tiles

/-- GetObjectGroupByName from the source: first group with the given name,
nil when absent. -/
def GetObjectGroupByName (t : TmxMap) (name : String) : Option ObjectGroup :=
  t.ObjectGroups.find? (fun g => g.Name == name)

/-- A Go image.Point (int coordinates). -/
structure GoPoint where
  X : Int
  Y : Int
deriving DecidableEq

/-- A Go image.Rectangle taken as the collision query subject: the source
reads subject.Min.X, subject.Min.Y, subject.Max.X and subject.Max.Y. -/
structure GoRect where
  MinX : Int
  MinY : Int
  MaxX : Int
  MaxY : Int
deriving DecidableEq

/-- CheckColisionPoint from the source: looks up the group hard-named
collisionmap; when the lookup yields nil the source immediately ranges over
the nil pointer's Objects field — a crash.  Otherwise a linear containment
scan with early exit. -/
def CheckColisionPoint (t : TmxMap) (subject : GoPoint) : Outcome Bool :=
  match GetObjectGroupByName t "collisionmap" with
  | none => .crash
  | some collisionLayer =>
    .ok (collisionLayer.Objects.any (fun o =>
      decide (subject.X ≥ o.X) && decide (subject.X ≤ o.X + o.Width) &&
      decide (subject.Y ≥ o.Y) && decide (subject.Y ≤ o.Y + o.Height)))

/-- CheckColision from the source: same hard-named lookup (nil → crash), then
an overlap scan whose subject maximum corner is computed as Min + Max, so the
subject rectangle is effectively given as (x, y, width, height) stored in
(MinX, MinY, MaxX, MaxY). -/
def CheckColision (t : TmxMap) (subject : GoRect) : Outcome Bool :=
  match GetObjectGroupByName t "collisionmap" with
  | none => .crash
  | some collisionLayer =>
    .ok (collisionLayer.Objects.any (fun o =>
      decide (subject.MinX < o.X + o.Width) &&
      decide (subject.MinX + subject.MaxX > o.X) &&
      decide (subject.MinY < o.Y + o.Height) &&
      decide (subject.MinY + subject.MaxY > o.Y)))

/-- The tileset-loading loop of LoadFromFile: each tileset is resolved in
place; the first error aborts. -/
def loadTilesets (env : Env) (dir : String) : List Tileset → Outcome (List Tileset)
  | [] => .ok []
  | t :: rest =>
    match loadFromTsx env dir t with
    | .crash => .crash
    | .err => .err
    | .ok t1 =>
      match loadTilesets env dir rest with
      | .crash => .crash
      | .err => .err
      | .ok rest1 => .ok (t1 :: rest1)

/-- The layer-decoding loop of LoadFromFile: each layer's Tiles are decoded
against the already-resolved tilesets; the first error aborts. -/
def decodeLayers (env : Env) (tilesets : List Tileset) : List Layer → Outcome (List Layer)
  | [] => .ok []
  | l :: rest =>
    match DecodeData env tilesets l with
    | .crash => .crash
    | .err => .err
    | .ok tiles =>
      match decodeLayers env tilesets rest with
      | .crash => .crash
      | .err => .err
      | .ok rest1 => .ok ({ l with Tiles := tiles } :: rest1)

/-- LoadFromFile from the source: read and parse the map document, resolve
every tileset, decode every layer, then — for debug logging — unconditionally
index ObjectGroups[0], which is out of range (a crash) whenever the map has
no object groups; finally derive the pixel dimensions and return the map. -/
def LoadFromFile (env : Env) (path : String) : Outcome TmxMap :=
  match env.readFile path with
  | none => .err
  | some data =>
    match env.unmarshalMap data with
    | none => .err
    | some gameMap =>
      match loadTilesets env (filepathDir path) gameMap.Tilesets with
      | .crash => .crash
      | .err => .err
      | .ok tilesets1 =>
        match decodeLayers env tilesets1 gameMap.Layers with
        | .crash => .crash
        | .err => .err
        | .ok layers1 =>
          match gameMap.ObjectGroups.head? with
          | none => .crash
          | some _ =>
            .ok { gameMap with
                    Tilesets := tilesets1
                    Layers := layers1
                    PixelWidth := gameMap.Width * gameMap.TileWidth
                    PixelHeight := gameMap.Height * gameMap.TileHeight }

/-- The global tile ID encoded in one 4-byte group. -/
def gidOf (q : Nat × Nat × Nat × Nat) : Nat :=
  (TileFromByteArray q.1 q.2.1 q.2.2.1 q.2.2.2).GlobalTileID

/-! ## Helper lemmas -/

theorem lor_shiftLeft_eq_add {a : Nat} (c n : Nat) (h : a < 2 ^ n) :
    a ||| c <<< n = a + c * 2 ^ n := by
  rw [Nat.lor_comm, Nat.shiftLeft_eq, Nat.mul_comm c, ← Nat.mul_add_lt_is_or h]
  omega

theorem encoded_eq_rawLE {b0 b1 b2 b3 : Nat} (h0 : b0 < 256) (h1 : b1 < 256)
    (h2 : b2 < 256) (h3 : b3 < 256) :
    b0 ||| b1 <<< 8 ||| b2 <<< 16 ||| b3 <<< 24 = rawLE b0 b1 b2 b3 := by
  have p8 : (2 : Nat) ^ 8 = 256 := by norm_num
  have p16 : (2 : Nat) ^ 16 = 65536 := by norm_num
  have p24 : (2 : Nat) ^ 24 = 16777216 := by norm_num
  have e1 : b0 ||| b1 <<< 8 = b0 + b1 * 2 ^ 8 :=
    lor_shiftLeft_eq_add b1 8 (by omega)
  have e2 : b0 + b1 * 2 ^ 8 ||| b2 <<< 16 = b0 + b1 * 2 ^ 8 + b2 * 2 ^ 16 :=
    lor_shiftLeft_eq_add b2 16 (by omega)
  have e3 : b0 + b1 * 2 ^ 8 + b2 * 2 ^ 16 ||| b3 <<< 24 =
      b0 + b1 * 2 ^ 8 + b2 * 2 ^ 16 + b3 * 2 ^ 24 :=
    lor_shiftLeft_eq_add b3 24 (by omega)
  rw [e1, e2, e3, rawLE]

theorem and_flag_gt_one_iff {i : Nat} (hi : 1 < 2 ^ i) (raw : Nat) :
    (1 < raw &&& 2 ^ i) ↔ raw &&& 2 ^ i ≠ 0 := by
  rw [Nat.and_two_pow]
  cases h : raw.testBit i
  · simp
  · simp only [Bool.toNat_true, Nat.one_mul]
    omega

/-! ## C1 -/

/-- C1: TileFromByteArray reads the four bytes as a little-endian 32-bit
value; each flip flag is set exactly when the corresponding flag bit
(0x80000000 / 0x40000000 / 0x20000000) is nonzero in the raw value (the
source's magnitude test against 1 is equivalent to the nonzero test because
the masked value is either 0 or the flag itself, and every flag exceeds 1);
GlobalTileID is the raw value with the three flag bits masked off
(0x1fffffff is the 32-bit complement of the combined flags, so this also
equals the raw value modulo 2^29); the function is total (it is a Lean
function) and a raw value of 0 yields GlobalTileID = 0. -/
theorem C1_tile_from_byte_array (b0 b1 b2 b3 : Nat) (h0 : b0 < 256)
    (h1 : b1 < 256) (h2 : b2 < 256) (h3 : b3 < 256) :
    ((TileFromByteArray b0 b1 b2 b3).FlippedHorizontally = true ↔
        rawLE b0 b1 b2 b3 &&& FLIPPED_HORIZONTALLY_FLAG ≠ 0) ∧
    ((TileFromByteArray b0 b1 b2 b3).FlippedVertically = true ↔
        rawLE b0 b1 b2 b3 &&& FLIPPED_VERTICALLY_FLAG ≠ 0) ∧
    ((TileFromByteArray b0 b1 b2 b3).FlippedDiagonally = true ↔
        rawLE b0 b1 b2 b3 &&& FLIPPED_DIAGONALLY_FLAG ≠ 0) ∧
    (TileFromByteArray b0 b1 b2 b3).GlobalTileID = rawLE b0 b1 b2 b3 &&& 0x1fffffff ∧
    (TileFromByteArray b0 b1 b2 b3).GlobalTileID = rawLE b0 b1 b2 b3 % 2 ^ 29 ∧
    (rawLE b0 b1 b2 b3 = 0 → (TileFromByteArray b0 b1 b2 b3).GlobalTileID = 0) := by
  have eraw := encoded_eq_rawLE h0 h1 h2 h3
  have hmask : (FLIPPED_DIAGONALLY_FLAG ||| FLIPPED_HORIZONTALLY_FLAG |||
      FLIPPED_VERTICALLY_FLAG) ^^^ 0xffffffff = 0x1fffffff := by decide
  have hH : FLIPPED_HORIZONTALLY_FLAG = 2 ^ 31 := by decide
  have hV : FLIPPED_VERTICALLY_FLAG = 2 ^ 30 := by decide
  have hD : FLIPPED_DIAGONALLY_FLAG = 2 ^ 29 := by decide
  have hgid : (TileFromByteArray b0 b1 b2 b3).GlobalTileID =
      rawLE b0 b1 b2 b3 &&& 0x1fffffff := by
    simp only [TileFromByteArray, hmask, eraw]
  refine ⟨?_, ?_, ?_, hgid, ?_, ?_⟩
  · simp only [TileFromByteArray, eraw, hH, decide_eq_true_eq]
    exact and_flag_gt_one_iff (by norm_num) _
  · simp only [TileFromByteArray, eraw, hV, decide_eq_true_eq]
    exact and_flag_gt_one_iff (by norm_num) _
  · simp only [TileFromByteArray, eraw, hD, decide_eq_true_eq]
    exact and_flag_gt_one_iff (by norm_num) _
  · rw [hgid]
    have : (0x1fffffff : Nat) = 2 ^ 29 - 1 := by norm_num
    rw [this, Nat.and_pow_two_sub_one_eq_mod]
  · intro h
    rw [hgid, h, Nat.zero_and]

/-- Witness for C1 at the concrete cell (5, 1, 0, 160): byte bounds hold and
the decoded GlobalTileID is the masked raw value. -/
theorem C1_tile_from_byte_array_witness :
    ((5 : Nat) < 256 ∧ (1 : Nat) < 256 ∧ (0 : Nat) < 256 ∧ (160 : Nat) < 256) ∧
    (TileFromByteArray 5 1 0 160).GlobalTileID = rawLE 5 1 0 160 &&& 0x1fffffff :=
  ⟨⟨by decide, by decide, by decide, by decide⟩,
    (C1_tile_from_byte_array 5 1 0 160 (by decide) (by decide) (by decide)
      (by decide)).2.2.2.1⟩

/-! ## Resolution of the owning tileset -/

theorem resolveTileset_append (l : List Tileset) (x : Tileset) (gid : Nat) :
    resolveTileset (l ++ [x]) gid =
      if x.FirstGid ≤ gid then some x else resolveTileset l gid := by
  simp [resolveTileset, List.foldl_append]

theorem resolveTileset_spec (gid : Nat) (l : List Tileset)
    (hp : l.Pairwise (fun a b => a.FirstGid ≤ b.FirstGid)) (u : Tileset)
    (hres : resolveTileset l gid = some u) :
    u ∈ l ∧ u.FirstGid ≤ gid ∧
      ∀ v ∈ l, v.FirstGid ≤ gid → v.FirstGid ≤ u.FirstGid := by
  induction l using List.reverseRecOn with
  | nil => simp [resolveTileset] at hres
  | append_singleton l x ih =>
    rw [resolveTileset_append] at hres
    rw [List.pairwise_append] at hp
    obtain ⟨hpl, _, hcross⟩ := hp
    by_cases hx : x.FirstGid ≤ gid
    · rw [if_pos hx] at hres
      injection hres with hxu
      subst hxu
      refine ⟨List.mem_append_right _ (List.mem_singleton_self x), hx, ?_⟩
      intro v hv _
      rcases List.mem_append.mp hv with hvl | hvx
      · exact hcross v hvl x (List.mem_singleton_self x)
      · rw [List.mem_singleton] at hvx
        subst hvx
        exact le_refl _
    · rw [if_neg hx] at hres
      obtain ⟨hmem, hle, hmax⟩ := ih hpl hres
      refine ⟨List.mem_append_left _ hmem, hle, ?_⟩
      intro v hv hvle
      rcases List.mem_append.mp hv with hvl | hvx
      · exact hmax v hvl hvle
      · rw [List.mem_singleton] at hvx
        subst hvx
        exact absurd hvle hx

theorem decodeLoop_mem (tilesets : List Tileset) (l : Layer)
    (chunks : List (Nat × Nat × Nat × Nat)) :
    ∀ (n : Nat) (tiles : List Tile),
      decodeLoop tilesets l chunks n = .ok tiles →
      ∀ t ∈ tiles, t.GlobalTileID ≠ 0 ∧
        ∃ u, resolveTileset tilesets t.GlobalTileID = some u ∧
          t.Tileset = some u ∧
          t.InternalTileID = t.GlobalTileID - u.FirstGid := by
  induction chunks with
  | nil =>
    intro n tiles h t ht
    rw [decodeLoop] at h
    injection h with h
    subst h
    cases ht
  | cons q rest ih =>
    obtain ⟨b0, b1, b2, b3⟩ := q
    intro n tiles h t ht
    rw [decodeLoop] at h
    split at h
    next hz =>
      split at h
      next => exact Outcome.noConfusion h
      next ts hres =>
        split at h
        next => exact Outcome.noConfusion h
        next hwh =>
          split at h
          next => exact Outcome.noConfusion h
          next => exact Outcome.noConfusion h
          next tiles2 hrec =>
            injection h with h
            subst h
            rcases List.mem_cons.mp ht with rfl | ht2
            · exact ⟨hz, ts, hres, rfl, rfl⟩
            · exact ih (n + 1) tiles2 hrec t ht2
    next hz =>
      exact ih (n + 1) tiles h t ht

/-! ## C2 -/

/-- C2: for a tileset list ordered ascending by FirstGid, every tile produced
by a successful DecodeData on a fresh layer carries a non-empty global ID and
an owning tileset drawn from the list whose FirstGid is maximal among those
not exceeding the global ID, and its InternalTileID is the global ID minus
that FirstGid. -/
theorem C2_owning_tileset (env : Env) (tilesets : List Tileset) (l : Layer)
    (tiles : List Tile) (t : Tile)
    (hsorted : tilesets.Pairwise (fun a b => a.FirstGid ≤ b.FirstGid))
    (hinit : l.Tiles = [])
    (hok : DecodeData env tilesets l = .ok tiles)
    (ht : t ∈ tiles) :
    t.GlobalTileID ≠ 0 ∧
    ∃ u, t.Tileset = some u ∧ u ∈ tilesets ∧ u.FirstGid ≤ t.GlobalTileID ∧
      (∀ v ∈ tilesets, v.FirstGid ≤ t.GlobalTileID → v.FirstGid ≤ u.FirstGid) ∧
      t.InternalTileID = t.GlobalTileID - u.FirstGid := by
  rw [DecodeData] at hok
  split at hok
  next henc =>
    split at hok
    next => exact Outcome.noConfusion hok
    next bytes hb =>
      split at hok
      next => exact Outcome.noConfusion hok
      next => exact Outcome.noConfusion hok
      next newTiles hloop =>
        injection hok with hok
        rw [hinit, List.nil_append] at hok
        subst hok
        obtain ⟨hnz, u, hures, huts, hinternal⟩ := decodeLoop_mem tilesets l _ 0 _ hloop t ht
        obtain ⟨hmem, hle, hmax⟩ := resolveTileset_spec _ _ hsorted _ hures
        exact ⟨hnz, u, huts, hmem, hle, hmax, hinternal⟩
  next henc =>
    injection hok with hok
    rw [hinit] at hok
    subst hok
    cases ht

/-- Witness for C2: a two-tileset map (FirstGids 1 and 5) and a single cell
with global ID 6 resolves to the tileset with FirstGid 5 and local ID 1. -/
theorem C2_owning_tileset_witness :
    ∃ u, ({ GlobalTileID := 6, InternalTileID := 1, Tileset := some { FirstGid := 5 } } : Tile).Tileset = some u ∧
      u ∈ ([{ FirstGid := 1 }, { FirstGid := 5 }] : List Tileset) ∧
      u.FirstGid ≤ ({ GlobalTileID := 6, InternalTileID := 1, Tileset := some { FirstGid := 5 } } : Tile).GlobalTileID :=
  have h := C2_owning_tileset
    (Env.mk (fun _ => none) (fun _ => none) (fun _ => none) (fun _ => none) (fun _ => some [6, 0, 0, 0]))
    [{ FirstGid := 1 }, { FirstGid := 5 }]
    { Width := 4, Height := 4, DataEncoding := "base64" }
    [{ GlobalTileID := 6, InternalTileID := 1, Tileset := some { FirstGid := 5 } }]
    { GlobalTileID := 6, InternalTileID := 1, Tileset := some { FirstGid := 5 } }
    (by decide) rfl (by decide) (List.mem_singleton_self _)
  ⟨h.2.choose, h.2.choose_spec.1, h.2.choose_spec.2.1, h.2.choose_spec.2.2.1⟩

/-! ## C3 -/

/-- C3: the claim says DecodeData places the cell with sequential index 2 of
a layer with Width 2 and Height 3 at grid position (2 mod 2, 2 div 2) =
(0, 1).  The source instead computes Y as the index divided by the HEIGHT, so
that cell lands at (0, 2 div 3) = (0, 0): the first conjunct evaluates the
code (third produced tile has X = 0 and Y = 0), the second records that the
claim's row-major formula yields (0, 1) for the same cell. -/
theorem C3_code_eval :
    DecodeData
      (Env.mk (fun _ => none) (fun _ => none) (fun _ => none) (fun _ => none)
        (fun _ => some [1, 0, 0, 0, 1, 0, 0, 0, 1, 0, 0, 0]))
      [{ FirstGid := 1 }]
      { Width := 2, Height := 3, DataEncoding := "base64" } =
      .ok [{ GlobalTileID := 1, Tileset := some { FirstGid := 1 } },
        { GlobalTileID := 1, X := 1, Tileset := some { FirstGid := 1 } },
        { GlobalTileID := 1, Tileset := some { FirstGid := 1 } }] ∧
    ((2 : Nat) % 2, (2 : Nat) / 2) = (0, 1) :=
  ⟨by decide, by decide⟩

/-! ## C5 -/

theorem chunk4_length : ∀ (l : List Nat), (chunk4 l).length = l.length / 4
  | [] => rfl
  | [_] => by simp [chunk4]
  | [_, _] => by simp [chunk4]
  | [_, _, _] => by simp [chunk4]
  | _ :: _ :: _ :: _ :: rest => by
    rw [chunk4, List.length_cons, chunk4_length rest]
    simp only [List.length_cons]
    omega

theorem decodeLoop_count (tilesets : List Tileset) (l : Layer)
    (hW : l.Width ≠ 0) (hH : l.Height ≠ 0) :
    ∀ (chunks : List (Nat × Nat × Nat × Nat)) (n : Nat),
      (∀ q ∈ chunks, gidOf q ≠ 0 → resolveTileset tilesets (gidOf q) ≠ none) →
      ∃ tiles, decodeLoop tilesets l chunks n = .ok tiles ∧
        tiles.length = (chunks.filter (fun q => decide (gidOf q ≠ 0))).length := by
  intro chunks
  induction chunks with
  | nil =>
    intro n _
    exact ⟨[], rfl, rfl⟩
  | cons q rest ih =>
    intro n hres
    obtain ⟨b0, b1, b2, b3⟩ := q
    have hresRest : ∀ p ∈ rest, gidOf p ≠ 0 → resolveTileset tilesets (gidOf p) ≠ none :=
      fun p hp => hres p (List.mem_cons_of_mem _ hp)
    obtain ⟨tiles, hloop, hlen⟩ := ih (n + 1) hresRest
    by_cases hz : (TileFromByteArray b0 b1 b2 b3).GlobalTileID ≠ 0
    · have hr : resolveTileset tilesets (TileFromByteArray b0 b1 b2 b3).GlobalTileID ≠ none :=
        hres _ (List.mem_cons_self _ _) hz
      cases hts : resolveTileset tilesets (TileFromByteArray b0 b1 b2 b3).GlobalTileID with
      | none => exact absurd hts hr
      | some ts =>
        refine ⟨{ TileFromByteArray b0 b1 b2 b3 with Tileset := some ts, X := n % l.Width, Y := n / l.Height, InternalTileID := (TileFromByteArray b0 b1 b2 b3).GlobalTileID - ts.FirstGid } :: tiles, ?_, ?_⟩
        · simp [decodeLoop, hz, hts, hloop, hW, hH]
        · simp only [List.filter_cons]
          have : decide (gidOf (b0, b1, b2, b3) ≠ 0) = true := by
            simpa [gidOf] using hz
          rw [this]
          simp [hlen]
    · refine ⟨tiles, ?_, ?_⟩
      · simp only [decodeLoop]
        rw [if_neg hz]
        exact hloop
      · simp only [List.filter_cons]
        have : decide (gidOf (b0, b1, b2, b3) ≠ 0) = false := by
          simpa [gidOf] using hz
        rw [this]
        simp [hlen]

/-- C5: for a base64 layer whose payload decodes to a byte stream of length
n, and whose non-empty cells all resolve to some tileset, DecodeData
consumes exactly n / 4 complete 4-byte groups (a trailing partial group is
ignored without error), skips the empty cells and succeeds with a Tiles
collection whose length is the number of non-empty cells among those groups
— for every positive declared width and height. -/
theorem C5_group_consumption (env : Env) (tilesets : List Tileset) (l : Layer)
    (bytes : List Nat)
    (henc : l.DataEncoding = "base64")
    (hb : env.b64decode l.DataText.trim = some bytes)
    (hinit : l.Tiles = [])
    (hW : l.Width ≠ 0) (hH : l.Height ≠ 0)
    (hres : ∀ q ∈ chunk4 bytes, gidOf q ≠ 0 → resolveTileset tilesets (gidOf q) ≠ none) :
    (chunk4 bytes).length = bytes.length / 4 ∧
    ∃ tiles, DecodeData env tilesets l = .ok tiles ∧
      tiles.length = ((chunk4 bytes).filter (fun q => decide (gidOf q ≠ 0))).length := by
  refine ⟨chunk4_length bytes, ?_⟩
  obtain ⟨tiles, hloop, hlen⟩ := decodeLoop_count tilesets l hW hH (chunk4 bytes) 0 hres
  refine ⟨tiles, ?_, hlen⟩
  rw [DecodeData, if_pos henc, hb]
  simp [hloop, hinit]

/-- Witness for C5: a 9-byte payload (two complete groups, one with a
non-empty cell, plus a trailing partial byte) yields two consumed groups and
exactly one tile. -/
theorem C5_group_consumption_witness :
    (chunk4 [1, 0, 0, 0, 0, 0, 0, 0, 7]).length = 9 / 4 ∧
    ∃ tiles, DecodeData
      (Env.mk (fun _ => none) (fun _ => none) (fun _ => none) (fun _ => none)
        (fun _ => some [1, 0, 0, 0, 0, 0, 0, 0, 7]))
      [{ FirstGid := 1 }]
      { Width := 3, Height := 3, DataEncoding := "base64" } = .ok tiles ∧
      tiles.length = ((chunk4 [1, 0, 0, 0, 0, 0, 0, 0, 7]).filter
        (fun q => decide (gidOf q ≠ 0))).length :=
  C5_group_consumption
    (Env.mk (fun _ => none) (fun _ => none) (fun _ => none) (fun _ => none)
      (fun _ => some [1, 0, 0, 0, 0, 0, 0, 0, 7]))
    [{ FirstGid := 1 }]
    { Width := 3, Height := 3, DataEncoding := "base64" }
    [1, 0, 0, 0, 0, 0, 0, 0, 7]
    rfl rfl rfl (by decide) (by decide) (by decide)

/-! ## C6 -/

/-- C6: the claim says a non-empty cell owned by no tileset makes DecodeData
return an UnresolvedTileError naming the global ID and cell index.  The
source instead reaches its error branch with a nil Tileset pointer and
dereferences it while building the error message, so the call panics: here a
single cell with global ID 1 against a lone tileset with FirstGid 5 crashes
instead of returning an error. -/
theorem C6_code_eval :
    DecodeData
      (Env.mk (fun _ => none) (fun _ => none) (fun _ => none) (fun _ => none)
        (fun _ => some [1, 0, 0, 0]))
      [{ FirstGid := 5 }]
      { Width := 2, Height := 2, DataEncoding := "base64" } = .crash := by
  decide

/-! ## C4 -/

/-- C4: the claim says the atlas rectangle of local tile 4 in a tileset with
4 columns and 32x16 tiles has top-left (4 mod 4 * 32, 4 div 4 * 16) =
(0, 16).  The source computes the vertical offset with TileWidth instead of
TileHeight, so the code produces top-left (0, 32) — rectangle
(0, 32, 32, 48) — as the first conjunct evaluates; the second conjunct
records the claim's formula value (0, 16) for the same tile.  (For square
tiles, such as the spec's 32x32 example with firstgid 1 and global ID 5,
the two agree.) -/
theorem C4_code_eval :
    loadFromTsx (Env.mk (fun _ => some [0]) (fun _ => some { TileWidth := 32, TileHeight := 16, TileCount := 8, Columns := 4 }) (fun _ => none) (fun _ => some { Width := 128, Height := 32 }) (fun _ => none)) "assets" { Source := "a.tsx" } =
      .ok { Source := "a.tsx", TileWidth := 32, TileHeight := 16, TileCount := 8, Columns := 4, Tiles := [(0, ⟨0, 0, 32, 16⟩), (1, ⟨32, 0, 64, 16⟩), (2, ⟨64, 0, 96, 16⟩), (3, ⟨96, 0, 128, 16⟩), (4, ⟨0, 32, 32, 48⟩), (5, ⟨32, 32, 64, 48⟩), (6, ⟨64, 32, 96, 48⟩), (7, ⟨96, 32, 128, 48⟩)] } ∧
    ((4 : Nat) % 4 * 32, (4 : Nat) / 4 * 16) = (0, 16) :=
  ⟨by decide, by decide⟩

/-! ## C7 -/

/-- C7 (counterexample): on a map with no object group named collisionmap,
both collision queries crash with a nil-pointer dereference instead of
failing with a distinguishable GroupNotFoundError as the claim states. -/
theorem C7_counterexample :
    CheckColisionPoint { ObjectGroups := [] } { X := 0, Y := 0 } = .crash ∧
    CheckColision { ObjectGroups := [] } { MinX := 0, MinY := 0, MaxX := 1, MaxY := 1 } = .crash :=
  ⟨rfl, rfl⟩

/-- C7 (amended): the group name is fixed to collisionmap; when no such
group exists both queries dereference the nil group pointer and panic
(modelled as the crash outcome) rather than returning an error value, and
when the group exists but holds no objects both queries return false without
error. -/
theorem C7_group_lookup_behaviour (m : TmxMap) (p : GoPoint) (r : GoRect) :
    (GetObjectGroupByName m "collisionmap" = none →
      CheckColisionPoint m p = .crash ∧ CheckColision m r = .crash) ∧
    (∀ g, GetObjectGroupByName m "collisionmap" = some g → g.Objects = [] →
      CheckColisionPoint m p = .ok false ∧ CheckColision m r = .ok false) := by
  constructor
  · intro h
    constructor
    · simp [CheckColisionPoint, h]
    · simp [CheckColision, h]
  · intro g hg hobj
    constructor
    · simp [CheckColisionPoint, hg, hobj]
    · simp [CheckColision, hg, hobj]

/-- Witness for C7's amended statement: a map without the group crashes, a
map with an empty collisionmap group answers false. -/
theorem C7_group_lookup_behaviour_witness :
    CheckColisionPoint { ObjectGroups := [] } { X := 1, Y := 2 } = .crash ∧
    CheckColisionPoint { ObjectGroups := [{ Name := "collisionmap" }] } { X := 1, Y := 2 } = .ok false :=
  ⟨((C7_group_lookup_behaviour { ObjectGroups := [] } { X := 1, Y := 2 } { MinX := 0, MinY := 0, MaxX := 0, MaxY := 0 }).1 rfl).1,
    ((C7_group_lookup_behaviour { ObjectGroups := [{ Name := "collisionmap" }] } { X := 1, Y := 2 } { MinX := 0, MinY := 0, MaxX := 0, MaxY := 0 }).2 { Name := "collisionmap" } rfl rfl).1⟩

/-! ## C8 -/

/-- C8: against an existing collisionmap group, CheckColision answers true
exactly when some object overlaps the query rectangle under the standard
axis-aligned test; the query rectangle is supplied as (x, y, w, h) — the
source computes the subject's maximum corner as Min + Max, so its maxX is
x + w and its maxY is y + h. -/
theorem C8_aabb_overlap (m : TmxMap) (g : ObjectGroup)
    (hg : GetObjectGroupByName m "collisionmap" = some g) (x y w h : Int) :
    ∃ b, CheckColision m { MinX := x, MinY := y, MaxX := w, MaxY := h } = .ok b ∧
      (b = true ↔ ∃ o ∈ g.Objects,
        x < o.X + o.Width ∧ x + w > o.X ∧ y < o.Y + o.Height ∧ y + h > o.Y) := by
  refine ⟨g.Objects.any (fun o => decide (x < o.X + o.Width) && decide (x + w > o.X) && decide (y < o.Y + o.Height) && decide (y + h > o.Y)), ?_, ?_⟩
  · simp [CheckColision, hg]
  · simp [List.any_eq_true, and_assoc]

/-- Witness for C8: one object at (10, 10, 20, 20); the query (15, 15, 5, 5)
collides, the query (0, 0, 5, 5) does not — the spec's own example. -/
theorem C8_aabb_overlap_witness :
    CheckColision { ObjectGroups := [{ Name := "collisionmap", Objects := [{ X := 10, Y := 10, Width := 20, Height := 20 }] }] } { MinX := 15, MinY := 15, MaxX := 5, MaxY := 5 } = .ok true ∧
    CheckColision { ObjectGroups := [{ Name := "collisionmap", Objects := [{ X := 10, Y := 10, Width := 20, Height := 20 }] }] } { MinX := 0, MinY := 0, MaxX := 5, MaxY := 5 } = .ok false := by
  constructor
  · obtain ⟨b, hb, hiff⟩ := C8_aabb_overlap { ObjectGroups := [{ Name := "collisionmap", Objects := [{ X := 10, Y := 10, Width := 20, Height := 20 }] }] } { Name := "collisionmap", Objects := [{ X := 10, Y := 10, Width := 20, Height := 20 }] } rfl 15 15 5 5
    have hbt : b = true := hiff.mpr ⟨{ X := 10, Y := 10, Width := 20, Height := 20 }, List.mem_singleton_self _, by decide, by decide, by decide, by decide⟩
    rw [hbt] at hb
    exact hb
  · obtain ⟨b, hb, hiff⟩ := C8_aabb_overlap { ObjectGroups := [{ Name := "collisionmap", Objects := [{ X := 10, Y := 10, Width := 20, Height := 20 }] }] } { Name := "collisionmap", Objects := [{ X := 10, Y := 10, Width := 20, Height := 20 }] } rfl 0 0 5 5
    have hbf : b = false := by
      rcases Bool.eq_false_or_eq_true b with hb2 | hb2
      · exfalso
        obtain ⟨o, ho, _, h2, _, _⟩ := hiff.mp hb2
        rw [List.mem_singleton] at ho
        subst ho
        exact absurd h2 (by decide)
      · exact hb2
    rw [hbf] at hb
    exact hb

/-! ## C9 -/

/-- C9 (counterexample): a tileset description that is read successfully but
does not parse makes the claim demand a ResolutionError/DocumentError, yet
the source discards the parser's error, keeps the zero-valued description
and — the derived empty image path loading fine — returns success with
zero-defaulted geometry and an empty atlas. -/
theorem C9_counterexample :
    loadFromTsx (Env.mk (fun _ => some [0]) (fun _ => none) (fun _ => none) (fun _ => some { Width := 64, Height := 64 }) (fun _ => none)) "assets" { FirstGid := 1, Source := "broken.tsx" } =
      .ok { FirstGid := 1, Source := "broken.tsx", TileWidth := 0, TileHeight := 0, TileCount := 0, Columns := 0, Tiles := [] } := by
  decide

/-- C9 (amended): LoadFromTsx fails when the external description cannot be
read or the referenced image cannot be loaded, but a description that fails
to parse is silently ignored: the zero-valued parse result is used, so when
the image path derived from the empty source still loads, the call succeeds
with zero-defaulted geometry and an empty atlas, and no rectangle/image
bounds check is performed. -/
theorem C9_malformed_description_silent (env : Env) (path : String)
    (t : Tileset) (data : List Nat) (img : Image)
    (h1 : env.readFile (filepathJoin path t.Source) = some data)
    (h2 : env.unmarshalTsx data = none)
    (h3 : env.loadImage (filepathJoin (filepathDir (filepathJoin path t.Source)) "") = some img) :
    loadFromTsx env path t = .ok { t with Version := "", Tiledversion := "", TileWidth := 0, TileHeight := 0, TileCount := 0, Columns := 0, Tiles := [] } := by
  simp [loadFromTsx, h1, h2, h3, buildTiles]

/-- Witness for C9's amended statement at a concrete environment. -/
theorem C9_malformed_description_silent_witness :
    loadFromTsx (Env.mk (fun _ => some [0]) (fun _ => none) (fun _ => none) (fun _ => some { Width := 64, Height := 64 }) (fun _ => none)) "assets" { Source := "b.tsx", Name := "x" } =
      .ok { Source := "b.tsx", Name := "x" } :=
  C9_malformed_description_silent (Env.mk (fun _ => some [0]) (fun _ => none) (fun _ => none) (fun _ => some { Width := 64, Height := 64 }) (fun _ => none)) "assets" { Source := "b.tsx", Name := "x" } [0] { Width := 64, Height := 64 } rfl rfl rfl

/-! ## C10 -/

/-- C10: after reading, parsing, tileset resolution and layer decoding all
succeed, LoadFromFile unconditionally indexes ObjectGroups[0]; with no
object groups this indexes out of range (a crash), so a map without object
groups cannot be loaded, and every successfully loaded map has at least one
object group. -/
theorem C10_objectgroups_required (env : Env) (path : String) (data : List Nat)
    (gm : TmxMap) (ts : List Tileset) (ls : List Layer)
    (h1 : env.readFile path = some data)
    (h2 : env.unmarshalMap data = some gm)
    (h3 : loadTilesets env (filepathDir path) gm.Tilesets = .ok ts)
    (h4 : decodeLayers env ts gm.Layers = .ok ls)
    (h5 : gm.ObjectGroups = []) :
    LoadFromFile env path = .crash ∧
    ∀ (env2 : Env) (path2 : String) (m : TmxMap),
      LoadFromFile env2 path2 = .ok m → m.ObjectGroups ≠ [] := by
  constructor
  · simp [LoadFromFile, h1, h2, h3, h4, h5]
  · intro env2 path2 m hok
    rw [LoadFromFile] at hok
    split at hok
    next => exact Outcome.noConfusion hok
    next data2 hd =>
      split at hok
      next => exact Outcome.noConfusion hok
      next gm2 hgm =>
        split at hok
        next => exact Outcome.noConfusion hok
        next => exact Outcome.noConfusion hok
        next ts2 hts =>
          split at hok
          next => exact Outcome.noConfusion hok
          next => exact Outcome.noConfusion hok
          next ls2 hls =>
            split at hok
            next => exact Outcome.noConfusion hok
            next og hhead =>
              injection hok with hok
              subst hok
              intro hempty
              have hempty2 : gm2.ObjectGroups = [] := hempty
              rw [hempty2] at hhead
              exact Option.noConfusion hhead

/-- Witness for C10: a trivially parsed map with no tilesets, no layers and
no object groups makes LoadFromFile crash. -/
theorem C10_objectgroups_required_witness :
    LoadFromFile (Env.mk (fun _ => some [0]) (fun _ => none) (fun _ => some { Width := 4 }) (fun _ => none) (fun _ => none)) "m.tmx" = .crash :=
  (C10_objectgroups_required (Env.mk (fun _ => some [0]) (fun _ => none) (fun _ => some { Width := 4 }) (fun _ => none) (fun _ => none)) "m.tmx" [0] { Width := 4 } [] [] rfl rfl rfl rfl rfl).1

end Ebitmx
